import Mathlib

/-!
Verification of the command-line session engine of the `terminal-site`
repository (src/App.tsx), shallowly embedded in Lean 4.

The embedding translates the React component's state and handlers into pure
functions: the top-level component state becomes `AppState`; `handleCommand`
becomes a pure state-transition function that also returns the list of
asynchronous effects it schedules; the asynchronous completion callbacks
(guestbook submission, guestbook listing, component-typing completion) become
explicit resolution functions applied later in a trace of events.  The
client-side rate limiter becomes a pure function over `RateState` with an
explicit `now` timestamp in milliseconds.
-/

namespace TerminalSite

/-- Per-letter feedback marker of the word-guess game
(green / yellow / gray in `formatGuessOutput`). -/
inductive Mark
  | correct
  | present
  | absent
deriving DecidableEq, Repr

/-- Renderable output of a transcript entry, as a closed variant.  Each
constructor corresponds to one of the JSX outputs built in App.tsx; payloads
keep the data the output interpolates.  `undefinedOut` models the JS
`undefined` that is appended when no branch assigns `output`. -/
inductive Output
  | empty
  | undefinedOut
  | text (s : String)
  | guestbookCancelled
  | guestbookNameError
  | guestbookMessageError
  | guestbookNamePrompt (name : String)
  | guestbookSubmitting
  | guestbookSuccess (name message : String)
  | guestbookFailure (err : String)
  | guestbookLoading
  | guestbookListing (ok : Bool)
  | guessEmptyPrompt
  | guessLenError
  | guessWin (marks : List Mark) (target : String) (attemptNum : Nat)
  | guessLoss (marks : List Mark) (target : String)
  | guessTryAgain (marks : List Mark) (attemptsLeft : Nat)
  | hintOutput (category : String) (attemptsLeft : Nat)
  | gameIntro (word : String)
  | exitGame (word : String)
  | noGameToExit
  | componentTyping (name : String)
  | component (name : String)
  | chatFrame
  | matrixRain
  | signPrompt
  | apiTesting
  | commandNotFound
deriving DecidableEq, Repr

/-- A transcript entry (`Command` type in App.tsx):
`{ command: string, output: React.ReactNode, id?: string }`.
The random string id is modelled by an optional natural number. -/
structure HEntry where
  command : String
  output : Output
  id : Option Nat := none
deriving DecidableEq, Repr

/-- `typeof item.output === 'object' && item.output` truthiness test used by
the async find-and-replace callbacks: JSX elements are objects, strings and
`undefined` are not. -/
def isObjectOutput : Output → Bool
  | .empty => false
  | .undefinedOut => false
  | .text _ => false
  | _ => true

/-- Guestbook signing step (`guestbookStep` state). -/
inductive GbStep
  | name
  | message
  | complete
deriving DecidableEq, Repr

/-- The App component state relevant to the session engine. -/
structure AppState where
  history : List HEntry
  isPlayingGame : Bool
  gameWord : String
  gameCategory : String
  gameAttempts : Nat
  gameMaxAttempts : Nat
  gameGuessedLetters : List Char
  showGameHint : Bool
  isSigningGuestbook : Bool
  guestbookStep : GbStep
  guestbookName : String
  guestbookMessage : String
deriving DecidableEq, Repr

/-- Initial component state (the `useState` initializers in App.tsx). -/
def initialState : AppState :=
  { history := []
    isPlayingGame := false
    gameWord := ""
    gameCategory := ""
    gameAttempts := 0
    gameMaxAttempts := 6
    gameGuessedLetters := []
    showGameHint := false
    isSigningGuestbook := false
    guestbookStep := .name
    guestbookName := ""
    guestbookMessage := "" }

/-- Derived session mode (§3 of the spec): signing takes precedence because
`handleCommand` checks `isSigningGuestbook` first. -/
inductive SessionMode
  | idle
  | playingGame
  | signingGuestbook
deriving DecidableEq, Repr

def sessionMode (s : AppState) : SessionMode :=
  if s.isSigningGuestbook then .signingGuestbook
  else if s.isPlayingGame then .playingGame
  else .idle

/-- `String.prototype.trim`, embedded at the character level (the submitted
lines are ASCII, where JS and Lean whitespace agree). -/
def strTrim (s : String) : String :=
  ⟨((s.data.dropWhile Char.isWhitespace).reverse.dropWhile
      Char.isWhitespace).reverse⟩

/-- `String.prototype.toLowerCase`, at the character level (ASCII inputs). -/
def strToLower (s : String) : String := ⟨s.data.map Char.toLower⟩

/-- `String.prototype.toUpperCase`, at the character level (ASCII inputs). -/
def strToUpper (s : String) : String := ⟨s.data.map Char.toUpper⟩

/-- `String.prototype.startsWith`. -/
def strStartsWith (s pre : String) : Bool := pre.data.isPrefixOf s.data

/-- The static command registry `AVAILABLE_COMMANDS`. -/
def AVAILABLE_COMMANDS : List String :=
  ["about", "projects", "skills", "experience", "contact", "download",
   "game", "clear", "help", "chat", "matrix", "guestbook",
   "sign guestbook", "api-status"]

/-- The categorized word bank `wordCategories` of `WordGuessGame`,
in source (insertion) order. -/
def wordCategories : List (String × List String) :=
  [("Common Objects",
    ["APPLE", "CHAIR", "FLAME", "GRAPE", "HOUSE", "JUICE", "KNIFE", "LIGHT",
     "MONEY", "TABLE", "WATER"]),
   ("Animals",
    ["TIGER", "PANDA", "SHEEP", "HORSE", "SNAKE", "EAGLE", "ROBIN", "WHALE",
     "MOUSE", "ZEBRA"]),
   ("Colors", ["GREEN", "WHITE", "BLACK", "BROWN", "PEACH"]),
   ("Food",
    ["PIZZA", "SALAD", "BREAD", "STEAK", "OLIVE", "FRUIT", "CANDY", "PASTA",
     "CREAM", "DONUT"]),
   ("Technology",
    ["PHONE", "MOUSE", "CLOUD", "EMAIL", "VIDEO", "MEDIA", "PHOTO", "SOUND",
     "POWER", "ROBOT"]),
   ("Places",
    ["BEACH", "HOTEL", "STORE", "TOWER", "PLAZA", "FIELD", "LAKE", "HOUSE",
     "CABIN", "CLIFF"]),
   ("Activities", ["DANCE", "SMILE", "PARTY", "MUSIC", "OCEAN", "RIVER"])]

/-- `flatWordBank = Object.values(wordCategories).flat()`. -/
def flatWordBank : List String :=
  (wordCategories.map Prod.snd).flatten

/-- `getRandomWord`: `Math.floor(Math.random() * flatWordBank.length)` is
modelled by an arbitrary natural number reduced mod the bank length; the
category is found by `Object.keys(...).find(...)`, i.e. the first category
whose list contains the selected word, defaulting to "Unknown". -/
def getRandomWord (rand : Nat) : String × String :=
  let selectedWord := (flatWordBank.get? (rand % flatWordBank.length)).getD ""
  let category :=
    ((wordCategories.find? (fun p => p.2.contains selectedWord)).map
      Prod.fst).getD "Unknown"
  (selectedWord, category)

/-- `formatGuessOutput`: per-position marker.  `letter === targetWord[index]`
(out-of-range JS indexing yields `undefined`, hence `get?`), else
`targetWord.includes(letter)`, else absent. -/
def markLetter (target : String) (i : Nat) (c : Char) : Mark :=
  if target.toList.get? i = some c then .correct
  else if target.toList.contains c then .present
  else .absent

def formatGuessOutput (guess target : String) : List Mark :=
  guess.toList.enum.map (fun p => markLetter target p.1 p.2)

/-- `upperGuess.split('').forEach(letter => guessedLetters.add(letter))`:
insertion-ordered set union of the guess letters into the guessed set. -/
def addLetters (ls : List Char) (w : String) : List Char :=
  w.toList.foldl (fun acc c => if acc.contains c then acc else acc ++ [c]) ls

structure GuessResult where
  output : Output
  isCorrect : Bool
  isValid : Bool
deriving DecidableEq, Repr

/-- `processGuess` of `WordGuessGame`.  The JS function mutates the
`guessedLetters` set in place before the length check; the mutation is
returned as the second component. -/
def processGuess (guess target : String) (attemptNum maxAttempts : Nat)
    (guessedLetters : List Char) : GuessResult × List Char :=
  let upperGuess := strToUpper guess
  let letters := addLetters guessedLetters upperGuess
  if upperGuess.length ≠ 5 then
    (⟨.guessLenError, false, false⟩, letters)
  else if upperGuess = target then
    (⟨.guessWin (formatGuessOutput upperGuess target) target attemptNum,
      true, true⟩, letters)
  else if attemptNum ≥ maxAttempts then
    (⟨.guessLoss (formatGuessOutput upperGuess target) target,
      false, true⟩, letters)
  else
    (⟨.guessTryAgain (formatGuessOutput upperGuess target)
        (maxAttempts - attemptNum), false, true⟩, letters)

/-- Asynchronous effects scheduled by `handleCommand` (the `(async () => ...)()`
blocks and the `CodeTypewriter` completion callback with its fallback timer). -/
inductive Effect
  | submitGuestbook (name message : String)
  | fetchEntries
  | apiTest
  | componentTimer (id : Nat) (cmd : String)
deriving DecidableEq, Repr

/-- The game-guess branch of `handleCommand` (the `isPlayingGame` case for a
non-empty line that is neither `exit` nor `hint`). -/
def applyGuess (s : AppState) (cmd command : String) : AppState :=
  let res := processGuess command s.gameWord (s.gameAttempts + 1)
      s.gameMaxAttempts s.gameGuessedLetters
  let s1 := { s with gameGuessedLetters := res.2 }
  let s2 := if res.1.isValid then { s1 with gameAttempts := s1.gameAttempts + 1 }
            else s1
  let s3 := if res.1.isCorrect ∨
               (res.1.isValid ∧ s.gameAttempts + 1 ≥ s.gameMaxAttempts) then
              { s2 with isPlayingGame := false, showGameHint := false }
            else s2
  { s3 with history := s3.history ++ [⟨cmd, res.1.output, none⟩] }

/-- The `isSigningGuestbook` block at the top of `handleCommand`. -/
def handleSigning (s : AppState) (cmd command : String) :
    AppState × List Effect :=
  if command = "exit" then
    ({ s with isSigningGuestbook := false,
              history := s.history ++ [⟨cmd, .guestbookCancelled, none⟩] }, [])
  else if s.guestbookStep = .name then
    if command = "" then
      ({ s with history := s.history ++ [⟨cmd, .guestbookNameError, none⟩] }, [])
    else
      ({ s with guestbookName := command, guestbookStep := .message,
                history := s.history ++
                  [⟨cmd, .guestbookNamePrompt command, none⟩] }, [])
  else if s.guestbookStep = .message then
    if command = "" then
      ({ s with history := s.history ++
                  [⟨cmd, .guestbookMessageError, none⟩] }, [])
    else
      ({ s with guestbookMessage := command, guestbookStep := .complete,
                history := s.history ++ [⟨cmd, .guestbookSubmitting, none⟩] },
       [.submitGuestbook s.guestbookName command])
  else
    ({ s with history := s.history ++ [⟨cmd, .undefinedOut, none⟩] }, [])

/-- The `switch (command)` statement at the bottom of `handleCommand`
(reached only outside both sub-sessions, or in `PlayingGame` for `exit`). -/
def handleSwitch (s : AppState) (cmd command : String) (rand : Nat) :
    AppState × List Effect :=
  if command = "about" ∨ command = "projects" ∨ command = "skills" ∨
      command = "experience" ∨ command = "contact" ∨
      command = "download" ∨ command = "help" then
    ({ s with history := s.history ++
                [⟨cmd, .componentTyping command, some rand⟩] },
     [.componentTimer rand cmd])
  else if command = "chat" then
    ({ s with history := s.history ++ [⟨cmd, .chatFrame, none⟩] }, [])
  else if command = "matrix" then
    ({ s with history := s.history ++ [⟨cmd, .matrixRain, none⟩] }, [])
  else if command = "game" then
    ({ s with gameWord := (getRandomWord rand).1,
              gameCategory := (getRandomWord rand).2, gameAttempts := 0,
              gameGuessedLetters := [], showGameHint := false,
              isPlayingGame := true,
              history := s.history ++
                [⟨cmd, .gameIntro (getRandomWord rand).1, none⟩] }, [])
  else if command = "exit" then
    if s.isPlayingGame then
      ({ s with isPlayingGame := false,
                history := s.history ++ [⟨cmd, .exitGame s.gameWord, none⟩] }, [])
    else
      ({ s with history := s.history ++ [⟨cmd, .noGameToExit, none⟩] }, [])
  else if command = "api-status" then
    ({ s with history := s.history ++ [⟨cmd, .apiTesting, none⟩] }, [.apiTest])
  else if command = "guestbook" then
    ({ s with history := s.history ++ [⟨cmd, .guestbookLoading, none⟩] },
     [.fetchEntries])
  else if command = "sign guestbook" then
    ({ s with isSigningGuestbook := true, guestbookStep := .name,
              guestbookName := "", guestbookMessage := "",
              history := s.history ++ [⟨cmd, .signPrompt, none⟩] }, [])
  else if command = "clear" then
    ({ s with history := [] }, [])
  else if command = "" then
    (s, [])
  else
    ({ s with history := s.history ++ [⟨cmd, .commandNotFound, none⟩] }, [])

/-- The synchronous part of `handleCommand` in App.tsx.  `cmd` is the raw
submitted line; `rand` supplies both the `Math.random()` draw used by
`getRandomWord` and the random id of `processComponentCommand`.  Returns the
updated state together with the asynchronous effects scheduled. -/
def handleCommand (s : AppState) (cmd : String) (rand : Nat) :
    AppState × List Effect :=
  let command := strToLower (strTrim cmd)
  if s.isSigningGuestbook then
    handleSigning s cmd command
  else if s.isPlayingGame ∧ command ≠ "exit" ∧ command ≠ "hint" then
    if command = "" then
      ({ s with history := s.history ++ [⟨cmd, .guessEmptyPrompt, none⟩] }, [])
    else
      (applyGuess s cmd command, [])
  else if s.isPlayingGame ∧ command = "hint" then
    ({ s with showGameHint := true,
              history := s.history ++
                [⟨cmd, .hintOutput s.gameCategory
                        (s.gameMaxAttempts - s.gameAttempts), none⟩] }, [])
  else
    handleSwitch s cmd command rand

/-- `Array.prototype.findLastIndex`. -/
def findLastIdx? (p : HEntry → Bool) (l : List HEntry) : Option Nat :=
  (l.reverse.findIdx? p).map (fun i => l.length - 1 - i)

/-- The lookup predicate `item.command === cmd && item.output &&
typeof item.output === 'object'` of the guestbook submission callbacks. -/
def pendingFor (cmd : String) (e : HEntry) : Bool :=
  e.command == cmd && isObjectOutput e.output

/-- The lookup predicate `entry.id === randomId && entry.command === cmd` of
the `CodeTypewriter` completion callback. -/
def typingEntryFor (rid : Nat) (cmd : String) (e : HEntry) : Bool :=
  e.id == some rid && e.command == cmd

/-- Success callback of the guestbook submission (`handleCommand`, message
step): `findLastIndex` of the entry with the submitted command and an object
output; replace it in place, or append as a new entry if not found. -/
def resolveGuestbookSuccess (cmd name message : String) (hist : List HEntry) :
    List HEntry :=
  let newEntry : HEntry := ⟨"Entry submitted", .guestbookSuccess name message, none⟩
  match findLastIdx? (pendingFor cmd) hist with
  | some i => hist.set i newEntry
  | none => hist ++ [newEntry]

/-- Failure callback of the guestbook submission: same find-and-replace with an
error entry, appended as new if the placeholder is missing. -/
def resolveGuestbookFailure (cmd err : String) (hist : List HEntry) :
    List HEntry :=
  let newEntry : HEntry := ⟨"Error", .guestbookFailure err, none⟩
  match findLastIdx? (pendingFor cmd) hist with
  | some i => hist.set i newEntry
  | none => hist ++ [newEntry]

/-- The `(async () => ...)()` continuation of the message-step submission:
`setIsSigningGuestbook(false)` runs after `await submitGuestbookEntry(...)`
resolves, then the placeholder is replaced (or a new entry appended). -/
def resolveSubmission (success : Bool) (cmd err : String) (s : AppState) :
    AppState :=
  let s1 := { s with isSigningGuestbook := false }
  if success then
    { s1 with history :=
        resolveGuestbookSuccess cmd s.guestbookName s.guestbookMessage s1.history }
  else
    { s1 with history := resolveGuestbookFailure cmd err s1.history }

/-- `CodeTypewriter` completion callback of `processComponentCommand`:
`findIndex` of the entry with the stored random id and command; if found the
entry is replaced by the rendered component, otherwise the previous history is
returned unchanged (only a console warning is logged). -/
def resolveComponentTyping (randomId : Nat) (cmd : String) (comp : Output)
    (hist : List HEntry) : List HEntry :=
  match hist.findIdx? (typingEntryFor randomId cmd) with
  | some i => hist.set i ⟨cmd, comp, some randomId⟩
  | none => hist

/-- Completion of the `guestbook` listing fetch: `findIndex` of the loading
entry (command `guestbook` with an object output); replace it, or append a new
`guestbook results` entry when missing. -/
def resolveGuestbookList (ok : Bool) (hist : List HEntry) : List HEntry :=
  match hist.findIdx? (pendingFor "guestbook") with
  | some i => hist.set i ⟨"guestbook", .guestbookListing ok, none⟩
  | none => hist ++ [⟨"guestbook results", .guestbookListing ok, none⟩]

/-- External events driving the session: a submitted line (with the random
draw it consumes) or the completion of a previously scheduled asynchronous
effect. -/
inductive Event
  | submit (line : String) (rand : Nat)
  | resolveSubmit (success : Bool) (cmd err : String)
  | resolveComponent (randomId : Nat) (cmd : String) (comp : Output)
  | resolveList (ok : Bool)
deriving Repr

def applyEvent (s : AppState) (e : Event) : AppState :=
  match e with
  | .submit line rand => (handleCommand s line rand).1
  | .resolveSubmit success cmd err => resolveSubmission success cmd err s
  | .resolveComponent randomId cmd comp =>
      { s with history := resolveComponentTyping randomId cmd comp s.history }
  | .resolveList ok => { s with history := resolveGuestbookList ok s.history }

def runTrace (s : AppState) (es : List Event) : AppState :=
  es.foldl applyEvent s

/-- Tab-completion state of `TerminalInterface` (the input buffer together
with the suggestion display). -/
structure TabState where
  buffer : String
  suggestions : List String
  showSuggestions : Bool
deriving DecidableEq, Repr

/-- `handleTabCompletion`: filter the registry by case-insensitive prefix of
the buffer; a unique match replaces the buffer, several matches are listed as
suggestions, zero matches change nothing. -/
def handleTabCompletion (t : TabState) : TabState :=
  let matchingCommands :=
    AVAILABLE_COMMANDS.filter (fun c => strStartsWith c (strToLower t.buffer))
  if matchingCommands.length = 1 then
    { buffer := matchingCommands.headD t.buffer,
      suggestions := t.suggestions, showSuggestions := false }
  else if matchingCommands.length > 1 then
    { buffer := t.buffer, suggestions := matchingCommands,
      showSuggestions := true }
  else t

/-! ### Client-side rate limiter and gateway calls

The rate limiter state: `apiRequestCount` and `apiRateLimitResetTime` (an
epoch time in milliseconds).  A `useEffect` timer calls `resetRateLimit` at
mount and then every 60000 ms, setting the counter to 0 and the reset time one
minute ahead.  `checkRateLimit` reads the wall clock (`new Date()`). -/

structure RateState where
  count : Nat
  resetTime : Nat
deriving DecidableEq, Repr

def MAX_REQUESTS_PER_MINUTE : Nat := 50

/-- The `resetRateLimit` closure of the mount effect / 60-second interval. -/
def resetRateLimit (now : Nat) : RateState :=
  { count := 0, resetTime := now + 60000 }

structure RateCheck where
  rateLimited : Bool
  secondsToWait : Option Nat
deriving DecidableEq, Repr

/-- `checkRateLimit`: if the counter has reached the budget and the reset time
is still in the future, fail with `Math.ceil((reset - now) / 1000)` seconds to
wait and leave the state untouched; otherwise increment the counter. -/
def checkRateLimit (now : Nat) (rs : RateState) : RateCheck × RateState :=
  if MAX_REQUESTS_PER_MINUTE ≤ rs.count ∧ now < rs.resetTime then
    (⟨true, some ((rs.resetTime - now + 999) / 1000)⟩, rs)
  else
    (⟨false, none⟩, { rs with count := rs.count + 1 })

/-- `checkApiHealth`: one rate-limit token; when rate limited it returns
`false` without any fetch; otherwise it issues the CORS preflight of
`testCorsSetup` plus the health GET (2 requests) and reports the abstracted
network verdict `healthy`.  The second component counts the network requests
issued. -/
def checkApiHealthCall (now : Nat) (healthy : Bool) (rs : RateState) :
    Bool × Nat × RateState :=
  let (c, rs1) := checkRateLimit now rs
  if c.rateLimited then (false, 0, rs1)
  else (healthy, 2, rs1)

/-- Result of a guestbook gateway call as observed by the UI. -/
inductive GwResult
  | rateLimited (secondsToWait : Nat)
  | unavailable
  | httpError
  | ok
deriving DecidableEq, Repr

/-- `fetchGuestbookEntries` (listEntries): rate-limit check, then embedded
health check (which consumes a second token), then the entries GET.
`healthy` and `fetchOk` abstract the two network outcomes. -/
def fetchGuestbookEntriesCall (now : Nat) (healthy fetchOk : Bool)
    (rs : RateState) : GwResult × Nat × RateState :=
  let (c, rs1) := checkRateLimit now rs
  if c.rateLimited then (.rateLimited (c.secondsToWait.getD 0), 0, rs1)
  else
    let (h, n, rs2) := checkApiHealthCall now healthy rs1
    if !h then (.unavailable, n, rs2)
    else if fetchOk then (.ok, n + 1, rs2)
    else (.httpError, n + 1, rs2)

/-- `submitGuestbookEntry` (createEntry): rate-limit check, health check,
client-side length validation, then the POST. -/
def submitGuestbookEntryCall (now : Nat) (healthy postOk : Bool)
    (name message : String) (rs : RateState) : GwResult × Nat × RateState :=
  let (c, rs1) := checkRateLimit now rs
  if c.rateLimited then (.rateLimited (c.secondsToWait.getD 0), 0, rs1)
  else
    let (h, n, rs2) := checkApiHealthCall now healthy rs1
    if !h then (.unavailable, n, rs2)
    else if name = "" ∨ 50 < name.length then (.httpError, n, rs2)
    else if message = "" ∨ 500 < message.length then (.httpError, n, rs2)
    else if postOk then (.ok, n + 1, rs2)
    else (.httpError, n + 1, rs2)

/-- A schedule of rate-limiter-relevant happenings: a listEntries call at a
given time, or the 60-second interval timer firing. -/
inductive RateEvent
  | listCall (now : Nat)
  | timerReset (now : Nat)
deriving Repr

/-- Run a schedule, collecting for each listEntries call its result and the
number of network requests it issued (timer events contribute nothing). -/
def runRateSchedule (rs : RateState) (es : List RateEvent) :
    List (GwResult × Nat) × RateState :=
  es.foldl
    (fun acc e =>
      match e with
      | .listCall now =>
          let (r, n, rs2) := fetchGuestbookEntriesCall now true true acc.2
          (acc.1 ++ [(r, n)], rs2)
      | .timerReset now => (acc.1, resetRateLimit now))
    ([], rs)

/-- The game-state invariant of §3 of the spec: the attempt budget is the
constant 6, the attempt counter never exceeds it, and while a game is being
played the counter is strictly below it (it reaches the bound only on the
exiting guess). -/
def InvGame (s : AppState) : Prop :=
  s.gameMaxAttempts = 6 ∧ s.gameAttempts ≤ 6 ∧
  (s.isPlayingGame = true → s.gameAttempts < 6)

/-! ### Helper lemmas -/

theorem applyGuess_history (s : AppState) (cmd command : String) :
    (applyGuess s cmd command).history =
      s.history ++ [⟨cmd,
        (processGuess command s.gameWord (s.gameAttempts + 1)
           s.gameMaxAttempts s.gameGuessedLetters).1.output, none⟩] := by
  unfold applyGuess
  dsimp only
  split <;> split <;> rfl

theorem processGuess_isValid (guess target : String) (a m : Nat)
    (ls : List Char) (h5 : (strToUpper guess).length = 5) :
    (processGuess guess target a m ls).1.isValid = true := by
  unfold processGuess
  dsimp only
  rw [if_neg (by omega)]
  split
  · rfl
  · split <;> rfl

theorem processGuess_isCorrect_true (guess target : String) (a m : Nat)
    (ls : List Char) (h5 : (strToUpper guess).length = 5)
    (heq : strToUpper guess = target) :
    (processGuess guess target a m ls).1.isCorrect = true := by
  unfold processGuess
  dsimp only
  rw [if_neg (by omega), if_pos heq]

theorem applyGuess_attempts_valid (s : AppState) (cmd command : String)
    (hv : (processGuess command s.gameWord (s.gameAttempts + 1)
             s.gameMaxAttempts s.gameGuessedLetters).1.isValid = true) :
    (applyGuess s cmd command).gameAttempts = s.gameAttempts + 1 := by
  unfold applyGuess
  dsimp only
  split <;> simp [hv]

theorem applyGuess_exits (s : AppState) (cmd command : String)
    (h : (processGuess command s.gameWord (s.gameAttempts + 1)
            s.gameMaxAttempts s.gameGuessedLetters).1.isCorrect = true ∨
         ((processGuess command s.gameWord (s.gameAttempts + 1)
             s.gameMaxAttempts s.gameGuessedLetters).1.isValid = true ∧
          s.gameMaxAttempts ≤ s.gameAttempts + 1)) :
    (applyGuess s cmd command).isPlayingGame = false := by
  unfold applyGuess
  dsimp only
  rw [if_pos h]

theorem handleCommand_guess (s : AppState) (cmd : String) (r : Nat)
    (hsign : s.isSigningGuestbook = false) (hplay : s.isPlayingGame = true)
    (hex : strToLower (strTrim cmd) ≠ "exit")
    (hhint : strToLower (strTrim cmd) ≠ "hint")
    (hne : strToLower (strTrim cmd) ≠ "") :
    handleCommand s cmd r = (applyGuess s cmd (strToLower (strTrim cmd)), []) := by
  simp [handleCommand, hsign, hplay, hex, hhint, hne]

theorem invGame_applyGuess (s : AppState) (cmd command : String)
    (hp : s.isPlayingGame = true) (h : InvGame s) :
    InvGame (applyGuess s cmd command) := by
  obtain ⟨hmax, hle, hlt⟩ := h
  have ha : s.gameAttempts < 6 := hlt hp
  unfold applyGuess
  dsimp only
  split
  · split
    · exact ⟨hmax, by dsimp only; omega, by dsimp only; simp⟩
    · exact ⟨hmax, by dsimp only; omega, by dsimp only; simp⟩
  · next hnc =>
    split
    · next hv =>
      have hlt2 : s.gameAttempts + 1 < s.gameMaxAttempts := by
        by_contra hcontra
        exact hnc (Or.inr ⟨hv, by omega⟩)
      exact ⟨hmax, by dsimp only; omega, fun _ => by dsimp only; omega⟩
    · exact ⟨hmax, hle, fun h2 => hlt (by simpa using h2)⟩

theorem invGame_handleSigning (s : AppState) (cmd command : String)
    (h : InvGame s) : InvGame (handleSigning s cmd command).1 := by
  obtain ⟨hmax, hle, hlt⟩ := h
  unfold handleSigning
  split
  · exact ⟨hmax, hle, hlt⟩
  · split
    · split
      · exact ⟨hmax, hle, hlt⟩
      · exact ⟨hmax, hle, hlt⟩
    · split
      · split
        · exact ⟨hmax, hle, hlt⟩
        · exact ⟨hmax, hle, hlt⟩
      · exact ⟨hmax, hle, hlt⟩

theorem invGame_handleSwitch (s : AppState) (cmd command : String) (r : Nat)
    (h : InvGame s) : InvGame (handleSwitch s cmd command r).1 := by
  obtain ⟨hmax, hle, hlt⟩ := h
  unfold handleSwitch
  by_cases h1 : command = "about" ∨ command = "projects" ∨ command = "skills" ∨
      command = "experience" ∨ command = "contact" ∨
      command = "download" ∨ command = "help"
  · rw [if_pos h1]; exact ⟨hmax, hle, hlt⟩
  rw [if_neg h1]
  by_cases h2 : command = "chat"
  · rw [if_pos h2]; exact ⟨hmax, hle, hlt⟩
  rw [if_neg h2]
  by_cases h3 : command = "matrix"
  · rw [if_pos h3]; exact ⟨hmax, hle, hlt⟩
  rw [if_neg h3]
  by_cases h4 : command = "game"
  · rw [if_pos h4]
    exact ⟨hmax, by dsimp only; omega, fun _ => by dsimp only; omega⟩
  rw [if_neg h4]
  by_cases h5 : command = "exit"
  · rw [if_pos h5]
    by_cases h6 : s.isPlayingGame = true
    · rw [if_pos h6]; exact ⟨hmax, hle, by dsimp only; simp⟩
    · rw [if_neg h6]; exact ⟨hmax, hle, hlt⟩
  rw [if_neg h5]
  by_cases h7 : command = "api-status"
  · rw [if_pos h7]; exact ⟨hmax, hle, hlt⟩
  rw [if_neg h7]
  by_cases h8 : command = "guestbook"
  · rw [if_pos h8]; exact ⟨hmax, hle, hlt⟩
  rw [if_neg h8]
  by_cases h9 : command = "sign guestbook"
  · rw [if_pos h9]; exact ⟨hmax, hle, hlt⟩
  rw [if_neg h9]
  by_cases h10 : command = "clear"
  · rw [if_pos h10]; exact ⟨hmax, hle, hlt⟩
  rw [if_neg h10]
  by_cases h11 : command = ""
  · rw [if_pos h11]; exact ⟨hmax, hle, hlt⟩
  rw [if_neg h11]
  exact ⟨hmax, hle, hlt⟩

theorem invGame_applyEvent (s : AppState) (e : Event) (h : InvGame s) :
    InvGame (applyEvent s e) := by
  cases e with
  | resolveSubmit success cmd err =>
      obtain ⟨hmax, hle, hlt⟩ := h
      show InvGame (resolveSubmission success cmd err s)
      unfold resolveSubmission
      dsimp only
      split <;> exact ⟨hmax, hle, hlt⟩
  | resolveComponent rid cmd comp => exact ⟨h.1, h.2.1, h.2.2⟩
  | resolveList ok => exact ⟨h.1, h.2.1, h.2.2⟩
  | submit line r =>
      show InvGame (handleCommand s line r).1
      unfold handleCommand
      dsimp only
      split
      · exact invGame_handleSigning s line _ h
      · split
        · next hc =>
          split
          · exact ⟨h.1, h.2.1, h.2.2⟩
          · exact invGame_applyGuess s line _ hc.1 h
        · split
          · exact ⟨h.1, h.2.1, h.2.2⟩
          · exact invGame_handleSwitch s line _ r h

theorem invGame_runTrace (es : List Event) :
    InvGame (runTrace initialState es) := by
  have hinit : InvGame initialState := ⟨rfl, by decide, fun _ => by decide⟩
  have hgen : ∀ (l : List Event) (s : AppState),
      InvGame s → InvGame (runTrace s l) := by
    intro l
    induction l with
    | nil => intro s hs; exact hs
    | cons e es ih =>
        intro s hs
        exact ih (applyEvent s e) (invGame_applyEvent s e hs)
  exact hgen es initialState hinit

/-! ### Theorems -/

/-- C3 (code_bug evidence): the claim "every word in the fixed word bank is
exactly 5 letters long" fails on the code: the `Places` category of
`wordCategories` contains `"LAKE"`, a 4-letter word.  When `getRandomWord`
draws index 52 it selects `"LAKE"` (category `"Places"`, the first — and only —
partition containing it), and the freshly created game state after submitting
`game` with that draw has a `targetWord` of length 4, not 5, contradicting the
game intro text "I'm thinking of a 5-letter word" and making that game
unwinnable (only 5-letter guesses are accepted). -/
theorem c3_word_bank_contains_lake :
    flatWordBank.contains "LAKE" = true ∧
    ("LAKE" : String).length = 4 ∧
    getRandomWord 52 = ("LAKE", "Places") ∧
    (runTrace initialState [.submit "game" 52]).isPlayingGame = true ∧
    (runTrace initialState [.submit "game" 52]).gameWord = "LAKE" ∧
    ((runTrace initialState [.submit "game" 52]).gameWord).length ≠ 5 := by
  refine ⟨by decide, by decide, by decide, by decide, by decide, by decide⟩

/-- C7 (counterexample): the claim says that when an asynchronous completion
cannot find its reserved placeholder the resolution "is appended as a new
entry instead — it is never silently dropped", for the component-typing
completion among others.  On an empty (cleared) transcript the
component-typing completion of `processComponentCommand` returns the
transcript unchanged — no entry is appended, the resolution is dropped. -/
theorem c7_component_completion_dropped :
    resolveComponentTyping 5 "about" (Output.component "about") [] = [] ∧
    (resolveComponentTyping 5 "about" (Output.component "about") []).length = 0 := by
  exact ⟨rfl, rfl⟩

/-- C7 (amended): for the guestbook submission resolutions (success and
failure) and the guestbook listing resolution, a completion whose placeholder
entry is missing from the transcript is appended as a new entry (and, being
total functions, the resolutions never throw); the component-typing
completion, however, leaves the transcript unchanged when its placeholder is
missing — that resolution is dropped with only a console warning. -/
theorem c7_resolution_fallback (hist : List HEntry) :
    (∀ cmd name message,
       findLastIdx? (pendingFor cmd) hist = none →
       resolveGuestbookSuccess cmd name message hist =
         hist ++ [⟨"Entry submitted", .guestbookSuccess name message, none⟩]) ∧
    (∀ cmd err,
       findLastIdx? (pendingFor cmd) hist = none →
       resolveGuestbookFailure cmd err hist =
         hist ++ [⟨"Error", .guestbookFailure err, none⟩]) ∧
    (∀ ok,
       hist.findIdx? (pendingFor "guestbook") = none →
       resolveGuestbookList ok hist =
         hist ++ [⟨"guestbook results", .guestbookListing ok, none⟩]) ∧
    (∀ rid cmd comp,
       hist.findIdx? (typingEntryFor rid cmd) = none →
       resolveComponentTyping rid cmd comp hist = hist) := by
  refine ⟨fun cmd name message h => ?_, fun cmd err h => ?_,
          fun ok h => ?_, fun rid cmd comp h => ?_⟩
  · simp [resolveGuestbookSuccess, h]
  · simp [resolveGuestbookFailure, h]
  · simp [resolveGuestbookList, h]
  · simp [resolveComponentTyping, h]

theorem c7_resolution_fallback_witness :
    resolveGuestbookSuccess "hi" "alice" "hello" [] =
      [⟨"Entry submitted", .guestbookSuccess "alice" "hello", none⟩] ∧
    resolveGuestbookFailure "hi" "oops" [] =
      [⟨"Error", .guestbookFailure "oops", none⟩] ∧
    resolveGuestbookList true [] =
      [⟨"guestbook results", .guestbookListing true, none⟩] ∧
    resolveComponentTyping 5 "about" (Output.component "about") [] = [] := by
  have h := c7_resolution_fallback []
  exact ⟨h.1 "hi" "alice" "hello" (by decide), h.2.1 "hi" "oops" (by decide),
         h.2.2.1 true (by decide), h.2.2.2 5 "about" _ (by decide)⟩

/-- C8: tab completion on the in-progress buffer filters the registered
command names by case-insensitive prefix match (in registered order, as
`Array.prototype.filter` preserves order).  With exactly one match the buffer
is replaced by that full command name; with two or more matches the buffer is
unchanged and all matches are listed as suggestions; with no match nothing
happens. -/
theorem c8_tab_completion (t : TabState) :
    ((AVAILABLE_COMMANDS.filter
        (fun c => strStartsWith c (strToLower t.buffer))).length = 1 →
       (handleTabCompletion t).buffer =
         (AVAILABLE_COMMANDS.filter
           (fun c => strStartsWith c (strToLower t.buffer))).headD t.buffer ∧
       (handleTabCompletion t).suggestions = t.suggestions ∧
       (handleTabCompletion t).showSuggestions = false) ∧
    (2 ≤ (AVAILABLE_COMMANDS.filter
        (fun c => strStartsWith c (strToLower t.buffer))).length →
       (handleTabCompletion t).buffer = t.buffer ∧
       (handleTabCompletion t).suggestions =
         AVAILABLE_COMMANDS.filter
           (fun c => strStartsWith c (strToLower t.buffer)) ∧
       (handleTabCompletion t).showSuggestions = true) ∧
    ((AVAILABLE_COMMANDS.filter
        (fun c => strStartsWith c (strToLower t.buffer))).length = 0 →
       handleTabCompletion t = t) := by
  unfold handleTabCompletion
  refine ⟨fun h1 => ?_, fun h2 => ?_, fun h0 => ?_⟩
  · simp [h1]
  · rw [if_neg (by omega), if_pos (by omega)]
    exact ⟨rfl, rfl, rfl⟩
  · rw [if_neg (by omega), if_neg (by omega)]

theorem c8_tab_completion_witness :
    (handleTabCompletion ⟨"ab", [], false⟩).buffer = "about" ∧
    (handleTabCompletion ⟨"c", [], false⟩).buffer = "c" ∧
    (handleTabCompletion ⟨"c", [], false⟩).suggestions =
      ["contact", "clear", "chat"] ∧
    handleTabCompletion ⟨"zz", ["stale"], true⟩ = ⟨"zz", ["stale"], true⟩ := by
  refine ⟨?_, ?_, ?_, ?_⟩
  · have h := (c8_tab_completion ⟨"ab", [], false⟩).1 (by decide)
    exact h.1.trans (by decide)
  · exact ((c8_tab_completion ⟨"c", [], false⟩).2.1 (by decide)).1
  · exact (((c8_tab_completion ⟨"c", [], false⟩).2.1 (by decide)).2.1).trans
      (by decide)
  · exact (c8_tab_completion ⟨"zz", ["stale"], true⟩).2.2 (by decide)

/-- C1 (counterexample): the claim states that a rejected invalid submission
leaves every field of the game state unchanged, including `guessedLetters`.
It fails on the code: `processGuess` merges the guess letters into the
`guessedLetters` set before the length check, so the rejected 3-letter guess
`abc` (after starting a game with draw 0, target `APPLE`) changes
`guessedLetters` from the empty set to `{A, B, C}` even though the guess is
rejected with the length error. -/
theorem c1_rejected_guess_mutates_letters :
    (runTrace initialState [.submit "game" 0]).gameGuessedLetters = [] ∧
    (handleCommand (runTrace initialState [.submit "game" 0])
        "abc" 0).1.gameGuessedLetters ≠
      (runTrace initialState [.submit "game" 0]).gameGuessedLetters ∧
    (handleCommand (runTrace initialState [.submit "game" 0])
        "abc" 0).1.history.getLast? = some ⟨"abc", .guessLenError, none⟩ := by
  refine ⟨by decide, by decide, by decide⟩

/-- C1 (amended): every invalid submission during a sub-session appends a
corrective error response and leaves the mode flags, the guestbook draft and
the `attempts`, `hintRevealed` and `targetWord` fields of the game state
unchanged; however a `PlayingGame` guess of length ≠ 5 still merges the
guess's (upper-cased) letters into `guessedLetters` before being rejected —
the only session state that may change.  The record equations below make the
frame explicit: only `history` (and for a wrong-length guess
`gameGuessedLetters`) differ from the pre-state. -/
theorem c1_invalid_input_frame (s : AppState) (cmd : String) (r : Nat) :
    (s.isSigningGuestbook = false → s.isPlayingGame = true →
     strToLower (strTrim cmd) ≠ "exit" → strToLower (strTrim cmd) ≠ "hint" →
     strToLower (strTrim cmd) ≠ "" →
     (strToUpper (strToLower (strTrim cmd))).length ≠ 5 →
     (handleCommand s cmd r).1 =
       { s with gameGuessedLetters :=
                  addLetters s.gameGuessedLetters
                    (strToUpper (strToLower (strTrim cmd))),
                history := s.history ++ [⟨cmd, .guessLenError, none⟩] }) ∧
    (s.isSigningGuestbook = false → s.isPlayingGame = true →
     strToLower (strTrim cmd) = "" →
     (handleCommand s cmd r).1 =
       { s with history := s.history ++ [⟨cmd, .guessEmptyPrompt, none⟩] }) ∧
    (s.isSigningGuestbook = true → s.guestbookStep = .name →
     strToLower (strTrim cmd) = "" →
     (handleCommand s cmd r).1 =
       { s with history := s.history ++ [⟨cmd, .guestbookNameError, none⟩] }) ∧
    (s.isSigningGuestbook = true → s.guestbookStep = .message →
     strToLower (strTrim cmd) = "" →
     (handleCommand s cmd r).1 =
       { s with history := s.history ++
                  [⟨cmd, .guestbookMessageError, none⟩] }) := by
  refine ⟨fun hsign hplay hex hhint hne h5 => ?_, fun hsign hplay he => ?_,
          fun hsign hstep he => ?_, fun hsign hstep he => ?_⟩
  · simp [handleCommand, hsign, hplay, hex, hhint, hne, applyGuess,
          processGuess, h5]
  · simp [handleCommand, hsign, hplay, he]
  · simp [handleCommand, handleSigning, hsign, hstep, he]
  · simp [handleCommand, handleSigning, hsign, hstep, he]

theorem c1_invalid_input_frame_witness :
    (handleCommand
        { initialState with isPlayingGame := true, gameWord := "APPLE",
                            gameCategory := "Common Objects" } "abc" 0).1 =
      { { initialState with isPlayingGame := true, gameWord := "APPLE",
                            gameCategory := "Common Objects" } with
          gameGuessedLetters :=
            addLetters [] (strToUpper (strToLower (strTrim "abc"))),
          history := [⟨"abc", .guessLenError, none⟩] } ∧
    (handleCommand
        { initialState with isSigningGuestbook := true } "" 0).1 =
      { { initialState with isSigningGuestbook := true } with
          history := [⟨"", .guestbookNameError, none⟩] } ∧
    (handleCommand
        { initialState with isSigningGuestbook := true,
                            guestbookStep := .message,
                            guestbookName := "bob" } "" 0).1 =
      { { initialState with isSigningGuestbook := true,
                            guestbookStep := .message,
                            guestbookName := "bob" } with
          history := [⟨"", .guestbookMessageError, none⟩] } := by
  refine ⟨?_, ?_, ?_⟩
  · exact (c1_invalid_input_frame _ "abc" 0).1 rfl rfl (by decide) (by decide)
      (by decide) (by decide)
  · exact (c1_invalid_input_frame _ "" 0).2.2.1 rfl rfl (by decide)
  · exact (c1_invalid_input_frame _ "" 0).2.2.2 rfl rfl (by decide)

/-- C2 (counterexample): the claim states that submitting a non-empty message
line in `SigningGuestbook` at step `Message` moves the session mode to `Idle`
immediately, before the asynchronous `Gateway.create` call completes.  It
fails on the code: `setIsSigningGuestbook(false)` runs only inside the async
continuation, after `await submitGuestbookEntry(...)` resolves.  On the
concrete trace `sign guestbook` → `alice` → (submit `hello there`), the state
immediately after the synchronous part of the submission still has mode
`SigningGuestbook` (with the draft at step `Complete`), not `Idle`. -/
theorem c2_mode_not_idle_in_flight :
    sessionMode (handleCommand (runTrace initialState
        [.submit "sign guestbook" 0, .submit "alice" 0]) "hello there" 0).1 =
      SessionMode.signingGuestbook ∧
    sessionMode (handleCommand (runTrace initialState
        [.submit "sign guestbook" 0, .submit "alice" 0]) "hello there" 0).1 ≠
      SessionMode.idle := by
  refine ⟨by decide, by decide⟩

/-- C2 (amended): when a non-empty message line is submitted in
`SigningGuestbook` at step `Message`, the synchronous part of the handler
stores the message, moves the draft step to `Complete`, appends the
"submitting" placeholder, and schedules the asynchronous `Gateway.create`
effect — but the session mode remains `SigningGuestbook` while the submission
is in flight; it becomes non-signing only when the asynchronous completion
(success or failure) resolves. -/
theorem c2_submission_mode_transition (s : AppState) (cmd : String) (r : Nat)
    (hsign : s.isSigningGuestbook = true)
    (hstep : s.guestbookStep = .message)
    (hex : strToLower (strTrim cmd) ≠ "exit")
    (hne : strToLower (strTrim cmd) ≠ "") :
    (handleCommand s cmd r).1.isSigningGuestbook = true ∧
    sessionMode (handleCommand s cmd r).1 = .signingGuestbook ∧
    (handleCommand s cmd r).1.guestbookStep = .complete ∧
    (handleCommand s cmd r).1.guestbookMessage = strToLower (strTrim cmd) ∧
    (handleCommand s cmd r).1.history =
      s.history ++ [⟨cmd, .guestbookSubmitting, none⟩] ∧
    (handleCommand s cmd r).2 =
      [.submitGuestbook s.guestbookName (strToLower (strTrim cmd))] ∧
    (∀ success err,
       (resolveSubmission success cmd err
          (handleCommand s cmd r).1).isSigningGuestbook = false) := by
  simp [handleCommand, handleSigning, hsign, hstep, hex, hne, sessionMode,
        resolveSubmission]

theorem c2_submission_mode_transition_witness :
    (handleCommand
        { initialState with isSigningGuestbook := true,
                            guestbookStep := .message,
                            guestbookName := "alice" }
        "hello there" 0).1.isSigningGuestbook = true ∧
    (handleCommand
        { initialState with isSigningGuestbook := true,
                            guestbookStep := .message,
                            guestbookName := "alice" }
        "hello there" 0).1.guestbookStep = GbStep.complete ∧
    (resolveSubmission true "hello there" ""
        (handleCommand
          { initialState with isSigningGuestbook := true,
                              guestbookStep := .message,
                              guestbookName := "alice" }
          "hello there" 0).1).isSigningGuestbook = false := by
  have h := c2_submission_mode_transition
    { initialState with isSigningGuestbook := true,
                        guestbookStep := .message, guestbookName := "alice" }
    "hello there" 0 rfl rfl (by decide) (by decide)
  exact ⟨h.1, h.2.2.1, h.2.2.2.2.2.2 true ""⟩

/-- C4: in every trace of the session from the initial state, the attempt
counter never exceeds `maxAttempts` (6, the constant attempt budget), so the
number of accepted length-5 guesses — and in particular of accepted wrong
guesses — within one game is at most 6; moreover the handler leaves
`PlayingGame` immediately on a correct accepted guess, and immediately when an
accepted guess makes `attempts` reach `maxAttempts` (with the counter then
exactly at the bound). -/
theorem c4_attempts_bounded :
    (∀ es : List Event,
        (runTrace initialState es).gameAttempts ≤
          (runTrace initialState es).gameMaxAttempts) ∧
    (∀ (s : AppState) (cmd : String) (r : Nat),
        s.isSigningGuestbook = false → s.isPlayingGame = true →
        strToLower (strTrim cmd) ≠ "exit" →
        strToLower (strTrim cmd) ≠ "hint" →
        (strToUpper (strToLower (strTrim cmd))).length = 5 →
        ((strToUpper (strToLower (strTrim cmd)) = s.gameWord →
            (handleCommand s cmd r).1.isPlayingGame = false) ∧
         (s.gameAttempts + 1 = s.gameMaxAttempts →
            (handleCommand s cmd r).1.isPlayingGame = false ∧
            (handleCommand s cmd r).1.gameAttempts = s.gameMaxAttempts))) := by
  constructor
  · intro es
    obtain ⟨h1, h2, _⟩ := invGame_runTrace es
    omega
  · intro s cmd r hsign hplay hex hhint h5
    have hne : strToLower (strTrim cmd) ≠ "" := by
      intro h0
      rw [h0] at h5
      exact absurd h5 (by decide)
    have hh := handleCommand_guess s cmd r hsign hplay hex hhint hne
    have hv := processGuess_isValid (strToLower (strTrim cmd)) s.gameWord
      (s.gameAttempts + 1) s.gameMaxAttempts s.gameGuessedLetters h5
    constructor
    · intro heq
      rw [hh]
      exact applyGuess_exits s cmd _
        (Or.inl (processGuess_isCorrect_true _ _ _ _ _ h5 heq))
    · intro hbound
      rw [hh]
      refine ⟨applyGuess_exits s cmd _ (Or.inr ⟨hv, by omega⟩), ?_⟩
      rw [applyGuess_attempts_valid s cmd _ hv]
      omega

theorem c4_attempts_bounded_witness :
    (runTrace initialState []).gameAttempts ≤
      (runTrace initialState []).gameMaxAttempts ∧
    (handleCommand
        { initialState with isPlayingGame := true, gameWord := "APPLE",
                            gameAttempts := 5 } "grape" 0).1.isPlayingGame
      = false ∧
    (handleCommand
        { initialState with isPlayingGame := true, gameWord := "APPLE",
                            gameAttempts := 5 } "grape" 0).1.gameAttempts
      = 6 ∧
    (handleCommand
        { initialState with isPlayingGame := true, gameWord := "APPLE" }
        "apple" 0).1.isPlayingGame = false := by
  have h2 := (c4_attempts_bounded.2
      { initialState with isPlayingGame := true, gameWord := "APPLE",
                          gameAttempts := 5 }
      "grape" 0 rfl rfl (by decide) (by decide) (by decide)).2 (by decide)
  have h3 := (c4_attempts_bounded.2
      { initialState with isPlayingGame := true, gameWord := "APPLE" }
      "apple" 0 rfl rfl (by decide) (by decide) (by decide)).1 (by decide)
  exact ⟨c4_attempts_bounded.1 [], h2.1, h2.2.trans (by decide), h3⟩

/-- C5: the per-letter feedback of `formatGuessOutput` is computed positionally
and by membership only: the marker at position `i` is "correct position" when
the guessed letter equals the target letter at `i`, otherwise "present" when
the guessed letter occurs anywhere in the target, otherwise "absent" — with no
frequency adjustment, as witnessed by guess `EERIE` against target `SPEAK`:
the letter `E` occurs once in the target yet all three `E`s of the guess are
marked present. -/
theorem c5_positional_membership_feedback :
    (∀ (guess target : String) (i : Nat) (c : Char),
        guess.toList[i]? = some c →
        (formatGuessOutput guess target)[i]? =
          some (if target.toList[i]? = some c then Mark.correct
                else if target.toList.contains c then Mark.present
                else Mark.absent)) ∧
    (formatGuessOutput "EERIE" "SPEAK" =
        [.present, .present, .absent, .absent, .present] ∧
     "SPEAK".toList.count ('E') = 1) := by
  refine ⟨fun guess target i c h => ?_, by decide, by decide⟩
  simp only [formatGuessOutput, List.getElem?_map, List.getElem?_enum,
             markLetter]
  simp
  exact ⟨c, by simpa using h, rfl⟩

theorem c5_positional_membership_feedback_witness :
    (formatGuessOutput "CLEAR" "APPLE")[1]? = some Mark.present := by
  have h := c5_positional_membership_feedback.1 "CLEAR" "APPLE" 1 'L'
    (by decide)
  exact h.trans (by decide)

/-- C6 (counterexample): the claim speaks of a budget per *rolling* one-minute
window: 51 `listEntries` calls within one rolling minute should leave the 51st
failing fast with no network request.  The code instead resets the counter on
a fixed 60-second timer: with 50 calls at t = 59999 ms, the timer reset firing
at t = 60000 ms, and the 51st call at t = 60001 ms — all 51 calls within a

2-millisecond span, hence within one rolling minute — the 51st call is *not*
rate limited: it succeeds and issues 3 network requests. -/
theorem c6_rolling_window_refuted :
    ((runRateSchedule (resetRateLimit 0)
        (((List.range 50).map (fun _ => RateEvent.listCall 59999)) ++
         [RateEvent.timerReset 60000, RateEvent.listCall 60001])).1.getLast? =
      some (GwResult.ok, 3)) := by
  set_option maxRecDepth 8000 in decide

/-- C6 (amended): gateway calls are capped by a counter with budget 50 per
*fixed* one-minute window (a timer resets the counter every 60 seconds); while
the counter is at the budget and the window's reset time lies in the future,
every gateway call — `checkHealth`, `listEntries`, `createEntry` — fails fast
with the rate-limit result stating `ceil((resetTime - now)/1000)` seconds
remaining and issues no network request (`checkHealth` resolves `false` with
the message only logged).  In particular 51 consecutive `listEntries` calls
within a single window with no intervening timer reset end with the 51st
failing this way (each `listEntries` consumes two budget units — its own check
plus the embedded health check — so every call from the 26th on already fails). -/
theorem c6_rate_limit_fixed_window (now : Nat) (rs : RateState)
    (healthy fetchOk postOk : Bool) (name message : String)
    (hcount : MAX_REQUESTS_PER_MINUTE ≤ rs.count)
    (htime : now < rs.resetTime) :
    checkRateLimit now rs =
      (⟨true, some ((rs.resetTime - now + 999) / 1000)⟩, rs) ∧
    checkApiHealthCall now healthy rs = (false, 0, rs) ∧
    fetchGuestbookEntriesCall now healthy fetchOk rs =
      (.rateLimited ((rs.resetTime - now + 999) / 1000), 0, rs) ∧
    submitGuestbookEntryCall now healthy postOk name message rs =
      (.rateLimited ((rs.resetTime - now + 999) / 1000), 0, rs) ∧
    ((runRateSchedule (resetRateLimit 0)
        ((List.range 51).map (fun _ => RateEvent.listCall 0))).1.getLast? =
      some (.rateLimited 60, 0)) := by
  have hc : checkRateLimit now rs =
      (⟨true, some ((rs.resetTime - now + 999) / 1000)⟩, rs) := by
    unfold checkRateLimit
    rw [if_pos ⟨hcount, htime⟩]
  refine ⟨hc, ?_, ?_, ?_, ?_⟩
  · simp [checkApiHealthCall, hc]
  · simp [fetchGuestbookEntriesCall, hc]
  · simp [submitGuestbookEntryCall, hc]
  · set_option maxRecDepth 8000 in decide

theorem c6_rate_limit_fixed_window_witness :
    fetchGuestbookEntriesCall 0 true true ⟨50, 60000⟩ =
      (.rateLimited 60, 0, ⟨50, 60000⟩) ∧
    submitGuestbookEntryCall 0 true true "alice" "hi" ⟨50, 60000⟩ =
      (.rateLimited 60, 0, ⟨50, 60000⟩) ∧
    checkApiHealthCall 0 true ⟨50, 60000⟩ = (false, 0, ⟨50, 60000⟩) := by
  have h := c6_rate_limit_fixed_window 0 ⟨50, 60000⟩ true true true
    "alice" "hi" (by decide) (by decide)
  exact ⟨h.2.2.1, h.2.2.2.1, h.2.1⟩

/-- C9: submitting `hint` while in `PlayingGame` only sets the hint-revealed
flag and appends the hint output (with the category and the letter-tracker
view); the full record equation shows that `attempts`, `guessedLetters`,
`targetWord` and the mode are unchanged. -/
theorem c9_hint_frame (s : AppState) (cmd : String) (r : Nat)
    (hsign : s.isSigningGuestbook = false) (hplay : s.isPlayingGame = true)
    (hcmd : strToLower (strTrim cmd) = "hint") :
    (handleCommand s cmd r).1 =
      { s with showGameHint := true,
               history := s.history ++
                 [⟨cmd, .hintOutput s.gameCategory
                         (s.gameMaxAttempts - s.gameAttempts), none⟩] } := by
  simp [handleCommand, hsign, hplay, hcmd]

theorem c9_hint_frame_witness :
    (handleCommand (runTrace initialState [.submit "game" 0]) "hint" 0).1 =
      { runTrace initialState [.submit "game" 0] with
          showGameHint := true,
          history := (runTrace initialState [.submit "game" 0]).history ++
            [⟨"hint",
              .hintOutput (runTrace initialState [.submit "game" 0]).gameCategory
                ((runTrace initialState [.submit "game" 0]).gameMaxAttempts -
                 (runTrace initialState [.submit "game" 0]).gameAttempts),
              none⟩] } :=
  c9_hint_frame (runTrace initialState [.submit "game" 0]) "hint" 0
    (by decide) (by decide) (by decide)

/-- C10: while in `PlayingGame`, every submitted line whose trimmed
lower-cased form is neither `exit` nor `hint` nor empty is routed to the guess
handler: the transcript is extended with the guess output of `processGuess`
(never cleared, and no registry handler or effect runs — the effect list is
empty), and when the line is 5 letters long — e.g. the registered command
names `clear` or `about` — it is accepted as a guess and consumes an attempt. -/
theorem c10_game_captures_input (s : AppState) (cmd : String) (r : Nat)
    (hsign : s.isSigningGuestbook = false) (hplay : s.isPlayingGame = true)
    (hex : strToLower (strTrim cmd) ≠ "exit")
    (hhint : strToLower (strTrim cmd) ≠ "hint")
    (hne : strToLower (strTrim cmd) ≠ "") :
    ((handleCommand s cmd r).1.history =
       s.history ++ [⟨cmd,
         (processGuess (strToLower (strTrim cmd)) s.gameWord
            (s.gameAttempts + 1) s.gameMaxAttempts
            s.gameGuessedLetters).1.output, none⟩]) ∧
    (handleCommand s cmd r).2 = [] ∧
    ((strToUpper (strToLower (strTrim cmd))).length = 5 →
       (handleCommand s cmd r).1.gameAttempts = s.gameAttempts + 1) := by
  have hh := handleCommand_guess s cmd r hsign hplay hex hhint hne
  refine ⟨?_, ?_, fun h5 => ?_⟩
  · rw [hh]
    exact applyGuess_history s cmd _
  · rw [hh]
  · rw [hh]
    exact applyGuess_attempts_valid s cmd _
      (processGuess_isValid _ _ _ _ _ h5)

theorem c10_game_captures_input_witness :
    ((handleCommand (runTrace initialState [.submit "game" 0]) "clear" 0).1.history =
       (runTrace initialState [.submit "game" 0]).history ++ [⟨"clear",
         (processGuess (strToLower (strTrim "clear"))
            (runTrace initialState [.submit "game" 0]).gameWord
            ((runTrace initialState [.submit "game" 0]).gameAttempts + 1)
            (runTrace initialState [.submit "game" 0]).gameMaxAttempts
            (runTrace initialState [.submit "game" 0]).gameGuessedLetters).1.output,
         none⟩]) ∧
    (handleCommand (runTrace initialState [.submit "game" 0]) "clear" 0).1.gameAttempts =
      (runTrace initialState [.submit "game" 0]).gameAttempts + 1 := by
  have h := c10_game_captures_input (runTrace initialState [.submit "game" 0])
    "clear" 0 (by decide) (by decide) (by decide) (by decide) (by decide)
  exact ⟨h.1, h.2.2 (by decide)⟩

end TerminalSite
